import Mathlib

/-!
Verification of the financial-signal-forge frontend signal model.

Shallow embedding of the TypeScript sources:
- `src/pages/Index.tsx` — the `TradingSignalDashboard` component (demo signal
  generator, dashboard position-size calculator) and the `Index` component
  (mock signals with indicators, simplified position-size calculator);
- `src/services/api.ts` (unnamed part) — `ApiService` with its fallback mock
  signals, proximity filtering and error handling;
- `src/hooks/useSignals.ts` — the very-close notification filter.

Prices and money amounts are modelled as exact rationals (ℚ); JavaScript
numeric literals such as 0.0001 denote the corresponding exact rational.
Runtime-clock values (`Date.now()`, `new Date().toISOString()`) and the
`Math.random()` draws are passed in as explicit parameters.
-/

/-- Direction of a trading signal: the `'BUY' | 'SELL'` union type. -/
inductive Direction
  | BUY
  | SELL
deriving DecidableEq, Repr

/-- Model of `s.includes("JPY")` on a list of characters: true iff the
characters `J`, `P`, `Y` occur consecutively. -/
def listContainsJPY : List Char → Bool
  | 'J' :: 'P' :: 'Y' :: _ => true
  | _ :: rest => listContainsJPY rest
  | [] => false

/-- Model of the JavaScript test `pair.includes('JPY')`. -/
def containsJPY (pair : String) : Bool :=
  listContainsJPY pair.toList

/-- The `Signal` interface of the `TradingSignalDashboard` component
(`src/pages/Index.tsx`, lines 16–39). -/
structure Signal where
  id : String
  pair : String
  timeframe : String
  direction : Direction
  strength : ℚ
  entry_price : ℚ
  stop_loss : ℚ
  take_profit_1 : ℚ
  take_profit_2 : ℚ
  take_profit_3 : ℚ
  risk_reward_1 : ℚ
  risk_reward_2 : ℚ
  risk_reward_3 : ℚ
  timestamp : String
  reasons : List String
  mtf_confirmation : Bool
  mtf_confirmation_percentage : ℚ
  session : String
  atr_percentile : ℚ
  sufficient_volatility : Bool
deriving DecidableEq, Repr

/-- Embedding of `generateDemoSignal` from `TradingSignalDashboard`
(`src/pages/Index.tsx`, lines 91–143).  The uniformly random choices of
pair, timeframe and direction are abstracted to the chosen values; the
`Math.random()` draws feeding the numeric fields are the explicit
parameters `rStrength`, `rBase`, `rSpread`, `rMtf`, `rMtfPct`, `rAtrPct`
(each drawn from [0,1) at runtime); `id` and `timestamp` stand for the
runtime-clock values. -/
def generateDemoSignal (id pair timeframe : String) (direction : Direction)
    (rStrength rBase rSpread rMtf rMtfPct rAtrPct : ℚ)
    (timestamp : String) : Signal :=
  let strength := 60 + rStrength * 40
  let basePrice : ℚ := if containsJPY pair then 140 + rBase * 20 else 1.0 + rBase * 0.2
  let pipValue : ℚ := if containsJPY pair then 0.01 else 0.0001
  let spread := 10 + rSpread * 20
  let entry_price := basePrice
  let stop_loss :=
    match direction with
    | .BUY => entry_price - spread * pipValue
    | .SELL => entry_price + spread * pipValue
  let risk := |entry_price - stop_loss|
  let tp1 := match direction with
    | .BUY => entry_price + risk
    | .SELL => entry_price - risk
  let tp2 := match direction with
    | .BUY => entry_price + risk * 2
    | .SELL => entry_price - risk * 2
  let tp3 := match direction with
    | .BUY => entry_price + risk * 3
    | .SELL => entry_price - risk * 3
  { id := id
    pair := pair
    timeframe := timeframe
    direction := direction
    strength := strength
    entry_price := entry_price
    stop_loss := stop_loss
    take_profit_1 := tp1
    take_profit_2 := tp2
    take_profit_3 := tp3
    risk_reward_1 := 1.0
    risk_reward_2 := 2.0
    risk_reward_3 := 3.0
    timestamp := timestamp
    reasons := ["RSI oversold recovery", "MACD bullish crossover", "Price above key support"]
    mtf_confirmation := decide (rMtf > 0.3)
    mtf_confirmation_percentage := 60 + rMtfPct * 40
    session := "london"
    atr_percentile := 30 + rAtrPct * 50
    sufficient_volatility := true }

/-- The `PositionSizing` interface of `TradingSignalDashboard`
(`src/pages/Index.tsx`, lines 41–47). -/
structure PositionSizing where
  account_balance : ℚ
  risk_percent : ℚ
  lot_size : ℚ
  risk_amount : ℚ
  max_loss : ℚ
deriving DecidableEq, Repr

/-- Embedding of `calculatePositionSize` of `TradingSignalDashboard`
(`src/pages/Index.tsx`, lines 182–201).  `Math.round(x)` is `⌊x + 1/2⌋`,
which is `round` on ℚ. -/
def calculatePositionSize (accountBalance riskPercent : ℚ) (signal : Signal) :
    PositionSizing :=
  let riskAmount := (accountBalance * riskPercent) / 100
  let pipDistance := |signal.entry_price - signal.stop_loss|
  let pipValue : ℚ := if containsJPY signal.pair then 0.01 else 0.0001
  let pips := pipDistance / pipValue
  let lotSize := riskAmount / (pips * 10)
  let maxLoss := lotSize * pips * 10
  { account_balance := accountBalance
    risk_percent := riskPercent
    lot_size := round (lotSize * 100) / 100
    risk_amount := riskAmount
    max_loss := maxLoss }

/-- The `indicators` record of the `TradingSignal` interface of the `Index`
component (`src/pages/Index.tsx`, lines 747–755). -/
structure Indicators where
  rsi : ℚ
  macd : ℚ
  macd_signal : ℚ
  macd_hist : ℚ
  sma_fast : ℚ
  sma_slow : ℚ
  atr : ℚ
deriving DecidableEq, Repr

/-- The `TradingSignal` interface of the `Index` component
(`src/pages/Index.tsx`, lines 730–757). -/
structure TradingSignal where
  id : String
  pair : String
  timeframe : String
  direction : Direction
  strength : ℚ
  reasons : List String
  entry_price : ℚ
  stop_loss : ℚ
  take_profit_1 : ℚ
  take_profit_2 : ℚ
  take_profit_3 : ℚ
  risk_reward_1 : ℚ
  risk_reward_2 : ℚ
  risk_reward_3 : ℚ
  timestamp : String
  current_price : ℚ
  indicators : Indicators
  status : String
deriving DecidableEq, Repr

/-- The `PositionSize` interface of the `Index` component
(`src/pages/Index.tsx`, lines 759–766); the `lot_size`/`units` alternative
is materialised as the `lot_size` field, the only one the component sets. -/
structure PositionSize where
  lot_size : ℚ
  risk_amount : ℚ
  max_loss : ℚ
  position_value : ℚ
  category : String
deriving DecidableEq, Repr

/-- Model of `parseFloat(x.toFixed(n))`: round to `n` decimal digits, ties toward
+∞ as ECMAScript `toFixed` specifies (pick the larger candidate). -/
def toFixed (n : ℕ) (x : ℚ) : ℚ :=
  ⌊x * 10 ^ n + 1 / 2⌋ / 10 ^ n

/-- Embedding of `calculatePositionSize` of the `Index` component
(`src/pages/Index.tsx`, lines 859–873). -/
def calculatePositionSizeIndex (accountBalance riskPercent : ℚ)
    (signal : TradingSignal) : PositionSize :=
  let riskAmount := accountBalance * (riskPercent / 100)
  let priceDistance := |signal.entry_price - signal.stop_loss|
  let pipValue : ℚ := 10
  let pipsDistance := priceDistance / 0.0001
  let lotSize := riskAmount / (pipsDistance * pipValue)
  { lot_size := toFixed 3 lotSize
    risk_amount := riskAmount
    max_loss := toFixed 2 (lotSize * pipsDistance * pipValue)
    position_value := toFixed 2 (lotSize * 100000 * signal.entry_price)
    category := "forex" }

/-- First element of the `mockSignals` array of the `Index` component
(`src/pages/Index.tsx`, lines 780–807); `ts` stands for the runtime
timestamp `new Date().toISOString()`. -/
def indexMockSignal1 (ts : String) : TradingSignal :=
  { id := "EUR_USD_H4_1640995200"
    pair := "EUR_USD"
    timeframe := "H4"
    direction := .BUY
    strength := 0.75
    reasons := ["RSI oversold recovery", "MACD bullish crossover", "Golden Cross + price above MAs"]
    entry_price := 1.0850
    stop_loss := 1.0810
    take_profit_1 := 1.0890
    take_profit_2 := 1.0930
    take_profit_3 := 1.0970
    risk_reward_1 := 1.0
    risk_reward_2 := 2.0
    risk_reward_3 := 3.0
    timestamp := ts
    current_price := 1.0850
    indicators :=
      { rsi := 32.5
        macd := 0.000123
        macd_signal := 0.000089
        macd_hist := 0.000034
        sma_fast := 1.0840
        sma_slow := 1.0820
        atr := 0.0025 }
    status := "ACTIVE" }

/-- Second element of the `mockSignals` array of the `Index` component
(`src/pages/Index.tsx`, lines 808–835); `ts` stands for the runtime
timestamp `new Date(Date.now() - 300000).toISOString()`. -/
def indexMockSignal2 (ts : String) : TradingSignal :=
  { id := "GBP_USD_H1_1640995300"
    pair := "GBP_USD"
    timeframe := "H1"
    direction := .SELL
    strength := 0.68
    reasons := ["RSI overbought decline", "MACD bearish crossover"]
    entry_price := 1.3420
    stop_loss := 1.3460
    take_profit_1 := 1.3380
    take_profit_2 := 1.3340
    take_profit_3 := 1.3300
    risk_reward_1 := 1.0
    risk_reward_2 := 2.0
    risk_reward_3 := 3.0
    timestamp := ts
    current_price := 1.3420
    indicators :=
      { rsi := 72.8
        macd := -0.000089
        macd_signal := 0.000034
        macd_hist := -0.000123
        sma_fast := 1.3430
        sma_slow := 1.3450
        atr := 0.0035 }
    status := "ACTIVE" }

/-- The `mockSignals` array of the `Index` component
(`src/pages/Index.tsx`, lines 779–836). -/
def indexMockSignals (ts1 ts2 : String) : List TradingSignal :=
  [indexMockSignal1 ts1, indexMockSignal2 ts2]

/-- The optional `indicators` record of the `TradingSignal` interface of the
api service (`src/services/api.ts`, lines 19–24). -/
structure ApiIndicators where
  rsi : ℚ
  macd : ℚ
  macd_signal : ℚ
  macd_hist : ℚ
deriving DecidableEq, Repr

/-- The `TradingSignal` interface of the api service
(`src/services/api.ts`, lines 3–25).  `distance_pips` and `proximity_score`
are optional fields. -/
structure ApiSignal where
  id : String
  pair : String
  timeframe : String
  direction : Direction
  strength : ℚ
  entry_price : ℚ
  current_price : ℚ
  stop_loss : ℚ
  take_profit_1 : ℚ
  take_profit_2 : ℚ
  take_profit_3 : ℚ
  distance_pips : Option ℚ
  proximity_score : Option ℚ
  timestamp : String
  reasons : List String
  indicators : Option ApiIndicators
deriving DecidableEq, Repr

/-- The `MarketData` interface of the api service
(`src/services/api.ts`, lines 27–33). -/
structure MarketData where
  pair : String
  price : ℚ
  change_24h : ℚ
  volume : ℚ
  timestamp : String
deriving DecidableEq, Repr

/-- The status union of the `SystemStatus` interface
(`src/services/api.ts`, line 36). -/
inductive HealthStatus
  | healthy
  | degraded
  | unhealthy
deriving DecidableEq, Repr

/-- The `SystemStatus` interface of the api service
(`src/services/api.ts`, lines 35–40).  The numeric `timestamp` is an
integer epoch-milliseconds value. -/
structure SystemStatus where
  status : HealthStatus
  data_available : Bool
  latest_data_age_minutes : Option ℚ
  timestamp : ℤ
deriving DecidableEq, Repr

/-- Outcome of one `fetchWithTimeout` round trip, as observed by a query
method's `try` block: either the fetch (or timeout) threw, or a response
arrived with an `ok` flag and a body whose JSON parse either succeeded
with a value of type `α` or threw (`body = none`). -/
inductive FetchOutcome (α : Type)
  | fail
  | success (ok : Bool) (body : Option α)
deriving DecidableEq

/-- The parsed JSON body shapes distinguished by
`Array.isArray(data) ? data : data.signals || []`
(`src/services/api.ts`, lines 67 and 126): either a bare array or an
object whose `signals` field is present or absent. -/
inductive ParsedSignals
  | arr (l : List ApiSignal)
  | obj (signals : Option (List ApiSignal))
deriving DecidableEq

/-- The parsed JSON body tested by `data.signal ? data : null`
(`src/services/api.ts`, line 82): an object with a truthy-or-not `signal`
field, read back as a whole signal when truthy. -/
structure LatestBody where
  signal_truthy : Bool
  asSignal : ApiSignal
deriving DecidableEq

namespace ApiService

/-- First element of `ApiService.getMockSignals`
(`src/services/api.ts`, lines 135–157); `ts` stands for the runtime
timestamp. -/
def mockSignal1 (ts : String) : ApiSignal :=
  { id := "1"
    pair := "EUR_USD"
    timeframe := "H1"
    direction := .BUY
    strength := 0.85
    entry_price := 1.0950
    current_price := 1.0945
    stop_loss := 1.0920
    take_profit_1 := 1.0980
    take_profit_2 := 1.1010
    take_profit_3 := 1.1040
    distance_pips := some 5
    proximity_score := some 0.9
    timestamp := ts
    reasons := ["RSI oversold recovery", "MACD bullish crossover", "Price above SMA"]
    indicators := some
      { rsi := 35.2
        macd := 0.0012
        macd_signal := 0.0008
        macd_hist := 0.0004 } }

/-- Second element of `ApiService.getMockSignals`
(`src/services/api.ts`, lines 158–180). -/
def mockSignal2 (ts : String) : ApiSignal :=
  { id := "2"
    pair := "GBP_USD"
    timeframe := "H4"
    direction := .SELL
    strength := 0.72
    entry_price := 1.2650
    current_price := 1.2655
    stop_loss := 1.2680
    take_profit_1 := 1.2620
    take_profit_2 := 1.2590
    take_profit_3 := 1.2560
    distance_pips := some 5
    proximity_score := some 0.8
    timestamp := ts
    reasons := ["RSI overbought decline", "Bearish divergence"]
    indicators := some
      { rsi := 72.8
        macd := -0.0008
        macd_signal := -0.0003
        macd_hist := -0.0005 } }

/-- Embedding of `ApiService.getMockSignals` (`src/services/api.ts`, lines 133–182). -/
def getMockSignals (ts : String) : List ApiSignal :=
  [mockSignal1 ts, mockSignal2 ts]

/-- Embedding of `ApiService.getMockMarketData` (`src/services/api.ts`, lines 184–201). -/
def getMockMarketData (ts : String) : List MarketData :=
  [ { pair := "EUR_USD", price := 1.0945, change_24h := 0.25,
      volume := 125000, timestamp := ts },
    { pair := "GBP_USD", price := 1.2655, change_24h := -0.15,
      volume := 98000, timestamp := ts } ]

/-- Model of `Array.isArray(data) ? data : data.signals || []` applied to a parsed
body (`src/services/api.ts`, lines 67 and 126). -/
def extractSignals : ParsedSignals → List ApiSignal
  | .arr l => l
  | .obj (some l) => l
  | .obj none => []

/-- Embedding of `ApiService.getSignals` (`src/services/api.ts`, lines 60–73) as a
function of the fetch outcome.  A thrown fetch, a non-ok response
(re-thrown on line 64) and a failed JSON parse all land in the `catch`
block, which returns the mock signals. -/
def getSignals (out : FetchOutcome ParsedSignals) (ts : String) : List ApiSignal :=
  match out with
  | .fail => getMockSignals ts
  | .success ok body =>
    if ok then
      match body with
      | some data => extractSignals data
      | none => getMockSignals ts
    else getMockSignals ts

/-- Embedding of `ApiService.getLatestSignal` (`src/services/api.ts`, lines 75–87) as a
function of the fetch outcome; every `catch` path returns `null`. -/
def getLatestSignal (out : FetchOutcome LatestBody) : Option ApiSignal :=
  match out with
  | .fail => none
  | .success ok body =>
    if ok then
      match body with
      | some data => if data.signal_truthy then some data.asSignal else none
      | none => none
    else none

/-- Embedding of `ApiService.getMarketData` (`src/services/api.ts`, lines 89–100) as a
function of the fetch outcome; every `catch` path returns the mock market
data. -/
def getMarketData (out : FetchOutcome (List MarketData)) (ts : String) :
    List MarketData :=
  match out with
  | .fail => getMockMarketData ts
  | .success ok body =>
    if ok then
      match body with
      | some data => data
      | none => getMockMarketData ts
    else getMockMarketData ts

/-- Embedding of `ApiService.getSystemStatus` (`src/services/api.ts`, lines 102–117) as
a function of the fetch outcome; every `catch` path returns
`{status: 'unhealthy', data_available: false, timestamp: Date.now()}`,
with `now` standing for `Date.now()`. -/
def getSystemStatus (out : FetchOutcome SystemStatus) (now : ℤ) : SystemStatus :=
  match out with
  | .fail => { status := .unhealthy, data_available := false,
               latest_data_age_minutes := none, timestamp := now }
  | .success ok body =>
    if ok then
      match body with
      | some data => data
      | none => { status := .unhealthy, data_available := false,
                  latest_data_age_minutes := none, timestamp := now }
    else { status := .unhealthy, data_available := false,
           latest_data_age_minutes := none, timestamp := now }

/-- The filter predicate `(s.distance_pips || 0) <= maxDistance` of the
`getProximitySignals` fallback (`src/services/api.ts`, line 129); an
absent `distance_pips` reads as 0 under JavaScript `||`. -/
def proximityPred (maxDistance : ℚ) (s : ApiSignal) : Bool :=
  decide (s.distance_pips.getD 0 ≤ maxDistance)

/-- Embedding of `ApiService.getProximitySignals` (`src/services/api.ts`, lines
119–131) as a function of the fetch outcome; every `catch` path returns
the mock signals filtered by `(s.distance_pips || 0) <= maxDistance`. -/
def getProximitySignals (maxDistance : ℚ) (out : FetchOutcome ParsedSignals)
    (ts : String) : List ApiSignal :=
  match out with
  | .fail => (getMockSignals ts).filter (proximityPred maxDistance)
  | .success ok body =>
    if ok then
      match body with
      | some data => extractSignals data
      | none => (getMockSignals ts).filter (proximityPred maxDistance)
    else (getMockSignals ts).filter (proximityPred maxDistance)

end ApiService

/-- The very-close filter predicate `(signal.distance_pips || 0) <= 5` of
`useProximitySignals` (`src/hooks/useSignals.ts`, line 51). -/
def veryClosePred (s : ApiSignal) : Bool :=
  decide (s.distance_pips.getD 0 ≤ 5)

/-- The `veryCloseSignals` list of `useProximitySignals`
(`src/hooks/useSignals.ts`, line 51): the fetched data filtered by
`(signal.distance_pips || 0) <= 5`. -/
def veryCloseSignals (data : List ApiSignal) : List ApiSignal :=
  data.filter veryClosePred

/-- Modelled from the spec: the backend proximity scorer (spec §4.6) is
part of this repository's Python service, which is not present under
`src/`; only its frontend callers are.  Per the spec,
`distance_pips = |current_price − entry_price| / pip_size` and
`proximity_score = clamp(1 − distance_pips / max_distance_pips, 0, 1)`. -/
def scoreProximity (pipSize maxDistancePips entry current : ℚ) : ℚ × ℚ :=
  let distancePips := |current - entry| / pipSize
  (distancePips, max 0 (min 1 (1 - distancePips / maxDistancePips)))

/-- Modelled from the spec: the backend risk-level calculator (spec §4.5)
is part of this repository's Python service, which is not present under
`src/`.  Per the spec, `risk_distance = ATR × multiplier`;
`stop_loss = entry ∓ risk_distance` and
`take_profit_n = entry ± n × risk_distance` by direction.  Returns
`(stop_loss, take_profit_1, take_profit_2, take_profit_3)`. -/
def riskLevels (atr multiplier entry : ℚ) (d : Direction) : ℚ × ℚ × ℚ × ℚ :=
  let riskDistance := atr * multiplier
  match d with
  | .BUY => (entry - riskDistance, entry + riskDistance,
             entry + 2 * riskDistance, entry + 3 * riskDistance)
  | .SELL => (entry + riskDistance, entry - riskDistance,
              entry - 2 * riskDistance, entry - 3 * riskDistance)

/-- Ordering chain for the buy-side level layout
`stop = base − X`, `tp_n = base + n·|base − (base − X)|` with `X > 0`. -/
lemma buy_chain (bp X : ℚ) (hX : 0 < X) :
    bp - X < bp ∧ bp < bp + |bp - (bp - X)| ∧
    bp + |bp - (bp - X)| < bp + |bp - (bp - X)| * 2 ∧
    bp + |bp - (bp - X)| * 2 < bp + |bp - (bp - X)| * 3 := by
  have h1 : bp - (bp - X) = X := by ring
  rw [h1, abs_of_pos hX]
  refine ⟨by linarith, by linarith, by linarith, by linarith⟩

/-- Ordering chain for the sell-side level layout
`stop = base + X`, `tp_n = base − n·|base − (base + X)|` with `X > 0`. -/
lemma sell_chain (bp X : ℚ) (hX : 0 < X) :
    bp + X > bp ∧ bp > bp - |bp - (bp + X)| ∧
    bp - |bp - (bp + X)| > bp - |bp - (bp + X)| * 2 ∧
    bp - |bp - (bp + X)| * 2 > bp - |bp - (bp + X)| * 3 := by
  have h1 : bp - (bp + X) = -X := by ring
  rw [h1, abs_neg, abs_of_pos hX]
  refine ⟨by linarith, by linarith, by linarith, by linarith⟩

/-- C1 (counterexample): the signal generated by `generateDemoSignal` with
strength draw 0 has strength 60, which does not lie in [0,1]. -/
theorem generateDemoSignal_strength_cex :
    (generateDemoSignal "s" "EUR_USD" "H1" .BUY 0 0 0 0 0 0 "t").strength = 60 ∧
    ¬ ((generateDemoSignal "s" "EUR_USD" "H1" .BUY 0 0 0 0 0 0 "t").strength ≤ 1) := by
  norm_num [generateDemoSignal]

/-- C1 (amended): `generateDemoSignal` places the strength field on the
0–100 percent scale, not in [0,1]: for every strength draw
`rStrength ∈ [0,1)`, the generated signal's strength `60 + 40·rStrength`
lies in [60,100). -/
theorem generateDemoSignal_strength_range
    (id pair tf ts : String) (d : Direction) (r1 r2 r3 r4 r5 r6 : ℚ)
    (h0 : 0 ≤ r1) (h1 : r1 < 1) :
    60 ≤ (generateDemoSignal id pair tf d r1 r2 r3 r4 r5 r6 ts).strength ∧
    (generateDemoSignal id pair tf d r1 r2 r3 r4 r5 r6 ts).strength < 100 := by
  simp only [generateDemoSignal]
  constructor <;> nlinarith

/-- Witness for C1's amended theorem at strength draw 1/2. -/
theorem generateDemoSignal_strength_range_witness :
    ((0 : ℚ) ≤ 1/2 ∧ (1/2 : ℚ) < 1) ∧
    (60 ≤ (generateDemoSignal "s" "EUR_USD" "H1" .BUY (1/2) 0 0 0 0 0 "t").strength ∧
     (generateDemoSignal "s" "EUR_USD" "H1" .BUY (1/2) 0 0 0 0 0 "t").strength < 100) :=
  ⟨⟨by norm_num, by norm_num⟩,
   generateDemoSignal_strength_range "s" "EUR_USD" "H1" "t" .BUY (1/2) 0 0 0 0 0
     (by norm_num) (by norm_num)⟩

/-- C4: every signal constructed by `generateDemoSignal` with direction
BUY satisfies `stop_loss < entry_price < tp1 < tp2 < tp3`; with direction
SELL the mirrored strict chain holds.  The spread draw `rSpread` is
non-negative at runtime (it is drawn from [0,1)). -/
theorem generateDemoSignal_levels_ordered
    (id pair tf ts : String) (r1 r2 r3 r4 r5 r6 : ℚ) (hr : 0 ≤ r3) :
    ((generateDemoSignal id pair tf .BUY r1 r2 r3 r4 r5 r6 ts).stop_loss <
       (generateDemoSignal id pair tf .BUY r1 r2 r3 r4 r5 r6 ts).entry_price ∧
     (generateDemoSignal id pair tf .BUY r1 r2 r3 r4 r5 r6 ts).entry_price <
       (generateDemoSignal id pair tf .BUY r1 r2 r3 r4 r5 r6 ts).take_profit_1 ∧
     (generateDemoSignal id pair tf .BUY r1 r2 r3 r4 r5 r6 ts).take_profit_1 <
       (generateDemoSignal id pair tf .BUY r1 r2 r3 r4 r5 r6 ts).take_profit_2 ∧
     (generateDemoSignal id pair tf .BUY r1 r2 r3 r4 r5 r6 ts).take_profit_2 <
       (generateDemoSignal id pair tf .BUY r1 r2 r3 r4 r5 r6 ts).take_profit_3) ∧
    ((generateDemoSignal id pair tf .SELL r1 r2 r3 r4 r5 r6 ts).stop_loss >
       (generateDemoSignal id pair tf .SELL r1 r2 r3 r4 r5 r6 ts).entry_price ∧
     (generateDemoSignal id pair tf .SELL r1 r2 r3 r4 r5 r6 ts).entry_price >
       (generateDemoSignal id pair tf .SELL r1 r2 r3 r4 r5 r6 ts).take_profit_1 ∧
     (generateDemoSignal id pair tf .SELL r1 r2 r3 r4 r5 r6 ts).take_profit_1 >
       (generateDemoSignal id pair tf .SELL r1 r2 r3 r4 r5 r6 ts).take_profit_2 ∧
     (generateDemoSignal id pair tf .SELL r1 r2 r3 r4 r5 r6 ts).take_profit_2 >
       (generateDemoSignal id pair tf .SELL r1 r2 r3 r4 r5 r6 ts).take_profit_3) := by
  have hpv : (0 : ℚ) < (if containsJPY pair then (0.01 : ℚ) else 0.0001) := by
    split <;> norm_num
  have hX : (0 : ℚ) <
      (10 + r3 * 20) * (if containsJPY pair then (0.01 : ℚ) else 0.0001) :=
    mul_pos (by linarith) hpv
  simp only [generateDemoSignal]
  exact ⟨buy_chain _ _ hX, sell_chain _ _ hX⟩

/-- Witness for C4 at spread draw 1/2 on EUR_USD. -/
theorem generateDemoSignal_levels_ordered_witness :
    ((0 : ℚ) ≤ 1/2) ∧
    ((generateDemoSignal "s" "EUR_USD" "H1" .BUY 0 0 (1/2) 0 0 0 "t").stop_loss <
       (generateDemoSignal "s" "EUR_USD" "H1" .BUY 0 0 (1/2) 0 0 0 "t").entry_price ∧
     (generateDemoSignal "s" "EUR_USD" "H1" .BUY 0 0 (1/2) 0 0 0 "t").entry_price <
       (generateDemoSignal "s" "EUR_USD" "H1" .BUY 0 0 (1/2) 0 0 0 "t").take_profit_1 ∧
     (generateDemoSignal "s" "EUR_USD" "H1" .BUY 0 0 (1/2) 0 0 0 "t").take_profit_1 <
       (generateDemoSignal "s" "EUR_USD" "H1" .BUY 0 0 (1/2) 0 0 0 "t").take_profit_2 ∧
     (generateDemoSignal "s" "EUR_USD" "H1" .BUY 0 0 (1/2) 0 0 0 "t").take_profit_2 <
       (generateDemoSignal "s" "EUR_USD" "H1" .BUY 0 0 (1/2) 0 0 0 "t").take_profit_3) :=
  ⟨by norm_num,
   (generateDemoSignal_levels_ordered "s" "EUR_USD" "H1" "t" 0 0 (1/2) 0 0 0
     (by norm_num)).1⟩

/-- C5: in every signal produced by `generateDemoSignal`, each
`take_profit_n` sits at exactly `n` times the entry-to-stop distance from
the entry price on the profit side of the direction, and
`risk_reward_n = n` for `n ∈ {1,2,3}`. -/
theorem generateDemoSignal_tp_multiples
    (id pair tf ts : String) (r1 r2 r3 r4 r5 r6 : ℚ) :
    ((generateDemoSignal id pair tf .BUY r1 r2 r3 r4 r5 r6 ts).take_profit_1 =
       (generateDemoSignal id pair tf .BUY r1 r2 r3 r4 r5 r6 ts).entry_price +
       1 * |(generateDemoSignal id pair tf .BUY r1 r2 r3 r4 r5 r6 ts).entry_price -
            (generateDemoSignal id pair tf .BUY r1 r2 r3 r4 r5 r6 ts).stop_loss| ∧
     (generateDemoSignal id pair tf .BUY r1 r2 r3 r4 r5 r6 ts).take_profit_2 =
       (generateDemoSignal id pair tf .BUY r1 r2 r3 r4 r5 r6 ts).entry_price +
       2 * |(generateDemoSignal id pair tf .BUY r1 r2 r3 r4 r5 r6 ts).entry_price -
            (generateDemoSignal id pair tf .BUY r1 r2 r3 r4 r5 r6 ts).stop_loss| ∧
     (generateDemoSignal id pair tf .BUY r1 r2 r3 r4 r5 r6 ts).take_profit_3 =
       (generateDemoSignal id pair tf .BUY r1 r2 r3 r4 r5 r6 ts).entry_price +
       3 * |(generateDemoSignal id pair tf .BUY r1 r2 r3 r4 r5 r6 ts).entry_price -
            (generateDemoSignal id pair tf .BUY r1 r2 r3 r4 r5 r6 ts).stop_loss|) ∧
    ((generateDemoSignal id pair tf .SELL r1 r2 r3 r4 r5 r6 ts).take_profit_1 =
       (generateDemoSignal id pair tf .SELL r1 r2 r3 r4 r5 r6 ts).entry_price -
       1 * |(generateDemoSignal id pair tf .SELL r1 r2 r3 r4 r5 r6 ts).entry_price -
            (generateDemoSignal id pair tf .SELL r1 r2 r3 r4 r5 r6 ts).stop_loss| ∧
     (generateDemoSignal id pair tf .SELL r1 r2 r3 r4 r5 r6 ts).take_profit_2 =
       (generateDemoSignal id pair tf .SELL r1 r2 r3 r4 r5 r6 ts).entry_price -
       2 * |(generateDemoSignal id pair tf .SELL r1 r2 r3 r4 r5 r6 ts).entry_price -
            (generateDemoSignal id pair tf .SELL r1 r2 r3 r4 r5 r6 ts).stop_loss| ∧
     (generateDemoSignal id pair tf .SELL r1 r2 r3 r4 r5 r6 ts).take_profit_3 =
       (generateDemoSignal id pair tf .SELL r1 r2 r3 r4 r5 r6 ts).entry_price -
       3 * |(generateDemoSignal id pair tf .SELL r1 r2 r3 r4 r5 r6 ts).entry_price -
            (generateDemoSignal id pair tf .SELL r1 r2 r3 r4 r5 r6 ts).stop_loss|) ∧
    (generateDemoSignal id pair tf .BUY r1 r2 r3 r4 r5 r6 ts).risk_reward_1 = 1 ∧
    (generateDemoSignal id pair tf .BUY r1 r2 r3 r4 r5 r6 ts).risk_reward_2 = 2 ∧
    (generateDemoSignal id pair tf .BUY r1 r2 r3 r4 r5 r6 ts).risk_reward_3 = 3 ∧
    (generateDemoSignal id pair tf .SELL r1 r2 r3 r4 r5 r6 ts).risk_reward_1 = 1 ∧
    (generateDemoSignal id pair tf .SELL r1 r2 r3 r4 r5 r6 ts).risk_reward_2 = 2 ∧
    (generateDemoSignal id pair tf .SELL r1 r2 r3 r4 r5 r6 ts).risk_reward_3 = 3 := by
  simp only [generateDemoSignal]
  refine ⟨⟨by ring, by ring, by ring⟩, ⟨by ring, by ring, by ring⟩,
    by norm_num, by norm_num, by norm_num, by norm_num, by norm_num, by norm_num⟩

/-- C2 (counterexample): at account balance 1000.125 and risk percent 1,
the Index calculator's reported `max_loss` is the rounded value 10, while
`lotSize × pipDistance × pipValuePerLot` at the same input is 10.00125, so
the reported maximum loss does not equal that product. -/
theorem positionSize_maxLoss_rounding_cex :
    (calculatePositionSizeIndex 1000.125 1 (indexMockSignal1 "t")).max_loss = 10 ∧
    (1000.125 : ℚ) * (1 / 100) /
        ((|(indexMockSignal1 "t").entry_price - (indexMockSignal1 "t").stop_loss| /
          0.0001) * 10) *
        (|(indexMockSignal1 "t").entry_price - (indexMockSignal1 "t").stop_loss| /
          0.0001) * 10 = 10.00125 ∧
    (10 : ℚ) ≠ 10.00125 := by
  refine ⟨?_, ?_, by norm_num⟩
  · norm_num [calculatePositionSizeIndex, indexMockSignal1, toFixed, abs]
  · norm_num [indexMockSignal1, abs]

/-- C2 (amended): both position-size calculators compute
`riskAmount = accountBalance × riskPercent / 100` and an internal
`lotSize = riskAmount / (pips × 10)` with `pips = |entry − stop| / pipSize`
(pipSize pair-dependent in the dashboard calculator, fixed 0.0001 in the
Index calculator, and pip value per lot fixed at 10).  The reported lot
size is that value rounded for display (2 decimals dashboard, 3 decimals
Index); the dashboard reports `max_loss = lotSize × pips × 10` exactly,
while the Index calculator reports that product rounded to 2 decimals. -/
theorem positionSize_formulas (balance pct : ℚ) (s : Signal) (t : TradingSignal) :
    (calculatePositionSize balance pct s).risk_amount = balance * pct / 100 ∧
    (calculatePositionSize balance pct s).lot_size =
      round (balance * pct / 100 /
        ((|s.entry_price - s.stop_loss| /
          (if containsJPY s.pair then 0.01 else 0.0001)) * 10) * 100) / 100 ∧
    (calculatePositionSize balance pct s).max_loss =
      balance * pct / 100 /
        ((|s.entry_price - s.stop_loss| /
          (if containsJPY s.pair then 0.01 else 0.0001)) * 10) *
        (|s.entry_price - s.stop_loss| /
          (if containsJPY s.pair then 0.01 else 0.0001)) * 10 ∧
    (calculatePositionSizeIndex balance pct t).risk_amount = balance * (pct / 100) ∧
    (calculatePositionSizeIndex balance pct t).lot_size =
      toFixed 3 (balance * (pct / 100) /
        ((|t.entry_price - t.stop_loss| / 0.0001) * 10)) ∧
    (calculatePositionSizeIndex balance pct t).max_loss =
      toFixed 2 (balance * (pct / 100) /
        ((|t.entry_price - t.stop_loss| / 0.0001) * 10) *
        (|t.entry_price - t.stop_loss| / 0.0001) * 10) :=
  ⟨rfl, rfl, rfl, rfl, rfl, rfl⟩

/-- C3 (counterexample): on the JPY-quoted pair USD_JPY with
`|entry − stop| = 0.10`, the Index calculator computes a lot size of
0.001 (pips taken as 0.10 / 0.0001 = 1000), whereas pips taken as
0.10 / 0.01 = 10 would give lot size 0.1 — so the Index calculator does
not use the 0.01 JPY pip size. -/
theorem indexCalc_jpy_pipSize_cex :
    (calculatePositionSizeIndex 1000 1
      (⟨"id", "USD_JPY", "H1", .SELL, 0.5, [], 140.10, 140.00, 140.20, 140.30,
        140.40, 1, 2, 3, "t", 140.05, ⟨50, 0, 0, 0, 140, 140, 0.01⟩,
        "ACTIVE"⟩ : TradingSignal)).lot_size = 0.001 ∧
    toFixed 3 ((1000 : ℚ) * (1 / 100) / ((|(140.10 : ℚ) - 140.00| / 0.01) * 10)) =
      0.1 ∧
    (0.001 : ℚ) ≠ 0.1 := by
  refine ⟨?_, ?_, by norm_num⟩
  · norm_num [calculatePositionSizeIndex, toFixed, abs]
  · norm_num [toFixed, abs]

/-- C3 (amended): the dashboard position-size calculator computes pips
with the pair-dependent pip size (0.01 for JPY-quoted pairs, 0.0001
otherwise), while the Index calculator always divides by 0.0001
regardless of pair — so only the dashboard calculator computes pips as
`|entry − stop| / 0.01` on JPY-quoted pairs. -/
theorem pipSize_pair_dependence (balance pct : ℚ) (s : Signal) (t : TradingSignal)
    (hs : containsJPY s.pair = true) (_ht : containsJPY t.pair = true) :
    (calculatePositionSize balance pct s).lot_size =
      round (balance * pct / 100 /
        ((|s.entry_price - s.stop_loss| / 0.01) * 10) * 100) / 100 ∧
    (calculatePositionSizeIndex balance pct t).lot_size =
      toFixed 3 (balance * (pct / 100) /
        ((|t.entry_price - t.stop_loss| / 0.0001) * 10)) := by
  constructor
  · simp [calculatePositionSize, hs]
  · rfl

/-- Witness for C3's amended theorem on USD_JPY inputs. -/
theorem pipSize_pair_dependence_witness :
    (containsJPY (generateDemoSignal "s" "USD_JPY" "H1" .BUY 0 0 0 0 0 0 "t").pair =
        true ∧
     containsJPY (⟨"id", "USD_JPY", "H1", .SELL, 0.5, [], 140.10, 140.00, 140.20,
        140.30, 140.40, 1, 2, 3, "t", 140.05, ⟨50, 0, 0, 0, 140, 140, 0.01⟩,
        "ACTIVE"⟩ : TradingSignal).pair = true) ∧
    ((calculatePositionSize 1000 1
        (generateDemoSignal "s" "USD_JPY" "H1" .BUY 0 0 0 0 0 0 "t")).lot_size =
      round ((1000 : ℚ) * 1 / 100 /
        ((|(generateDemoSignal "s" "USD_JPY" "H1" .BUY 0 0 0 0 0 0 "t").entry_price -
           (generateDemoSignal "s" "USD_JPY" "H1" .BUY 0 0 0 0 0 0 "t").stop_loss| /
          0.01) * 10) * 100) / 100 ∧
     (calculatePositionSizeIndex 1000 1
        (⟨"id", "USD_JPY", "H1", .SELL, 0.5, [], 140.10, 140.00, 140.20, 140.30,
          140.40, 1, 2, 3, "t", 140.05, ⟨50, 0, 0, 0, 140, 140, 0.01⟩,
          "ACTIVE"⟩ : TradingSignal)).lot_size =
      toFixed 3 ((1000 : ℚ) * (1 / 100) /
        ((|(140.10 : ℚ) - 140.00| / 0.0001) * 10))) :=
  ⟨⟨by decide, by decide⟩,
   pipSize_pair_dependence 1000 1
     (generateDemoSignal "s" "USD_JPY" "H1" .BUY 0 0 0 0 0 0 "t")
     (⟨"id", "USD_JPY", "H1", .SELL, 0.5, [], 140.10, 140.00, 140.20, 140.30,
       140.40, 1, 2, 3, "t", 140.05, ⟨50, 0, 0, 0, 140, 140, 0.01⟩,
       "ACTIVE"⟩ : TradingSignal)
     (by decide) (by decide)⟩

/-- C6: at max_distance_pips = 15, pip_size = 0.0001, entry = 1.0950 and
current_price = 1.0945, the spec-modelled proximity scorer yields
distance_pips = 5 and proximity_score = 1 − 5/15 = 2/3; the EUR_USD mock
signal of the api service carries exactly these entry and current prices
with distance_pips = 5, and is included in the fallback "near" view at
maxDistance = 15. -/
theorem proximity_scenario (ts : String) :
    scoreProximity 0.0001 15 1.0950 1.0945 = (5, 2/3) ∧
    (ApiService.mockSignal1 ts).entry_price = 1.0950 ∧
    (ApiService.mockSignal1 ts).current_price = 1.0945 ∧
    (ApiService.mockSignal1 ts).distance_pips = some 5 ∧
    ApiService.mockSignal1 ts ∈ ApiService.getProximitySignals 15 .fail ts := by
  refine ⟨?_, rfl, rfl, rfl, ?_⟩
  · norm_num [scoreProximity, Prod.ext_iff, abs]
  · norm_num [ApiService.getProximitySignals, ApiService.getMockSignals,
      ApiService.proximityPred, ApiService.mockSignal1]

/-- C7: in the fallback view served by the api service, a signal is in the
proximity ("near") view iff it is among the mock signals and its distance
(`distance_pips`, absent read as 0) is at most maxDistance, while
`getSignals` applies no distance filter: its fallback returns the full
mock list and its success path returns the parsed signals unchanged. -/
theorem near_view_iff (maxD : ℚ) (s : ApiSignal) (ts : String) (l : List ApiSignal) :
    (s ∈ ApiService.getProximitySignals maxD .fail ts ↔
      s ∈ ApiService.getMockSignals ts ∧ s.distance_pips.getD 0 ≤ maxD) ∧
    ApiService.getSignals .fail ts = ApiService.getMockSignals ts ∧
    ApiService.getSignals (.success true (some (.arr l))) ts = l := by
  refine ⟨?_, rfl, rfl⟩
  simp [ApiService.getProximitySignals, ApiService.proximityPred, List.mem_filter]

/-- C8: the spec-modelled risk-level calculator at ATR = 0.0025,
multiplier = 1.6, direction Buy, entry = 1.0850 yields
stop_loss = 1.0810 and take-profits 1.0890, 1.0930, 1.0970 — exactly the
levels carried by the EUR_USD H4 mock signal of the Index component,
whose indicators report atr = 0.0025. -/
theorem riskLevels_scenario (ts : String) :
    riskLevels 0.0025 1.6 1.0850 .BUY = (1.0810, 1.0890, 1.0930, 1.0970) ∧
    (indexMockSignal1 ts).entry_price = 1.0850 ∧
    (indexMockSignal1 ts).indicators.atr = 0.0025 ∧
    (indexMockSignal1 ts).stop_loss = 1.0810 ∧
    (indexMockSignal1 ts).take_profit_1 = 1.0890 ∧
    (indexMockSignal1 ts).take_profit_2 = 1.0930 ∧
    (indexMockSignal1 ts).take_profit_3 = 1.0970 := by
  refine ⟨?_, rfl, rfl, rfl, rfl, rfl, rfl⟩
  norm_num [riskLevels, Prod.ext_iff]

/-- C9: no api-service query method propagates a failure: on a thrown
fetch/timeout (`fail`) and on every non-OK HTTP response
(`success false _`), `getSignals` returns the mock signals,
`getLatestSignal` returns null, `getMarketData` returns the mock market
data, `getProximitySignals` returns the mock signals filtered by
maxDistance, and `getSystemStatus` returns
`{status: unhealthy, data_available: false, timestamp: Date.now()}`. -/
theorem apiService_fallbacks (ts : String) (now : ℤ) (maxD : ℚ)
    (b1 b1' : Option ParsedSignals) (b2 : Option LatestBody)
    (b3 : Option (List MarketData)) (b4 : Option SystemStatus) :
    ApiService.getSignals .fail ts = ApiService.getMockSignals ts ∧
    ApiService.getSignals (.success false b1) ts = ApiService.getMockSignals ts ∧
    ApiService.getLatestSignal .fail = none ∧
    ApiService.getLatestSignal (.success false b2) = none ∧
    ApiService.getMarketData .fail ts = ApiService.getMockMarketData ts ∧
    ApiService.getMarketData (.success false b3) ts =
      ApiService.getMockMarketData ts ∧
    ApiService.getProximitySignals maxD .fail ts =
      (ApiService.getMockSignals ts).filter (ApiService.proximityPred maxD) ∧
    ApiService.getProximitySignals maxD (.success false b1') ts =
      (ApiService.getMockSignals ts).filter (ApiService.proximityPred maxD) ∧
    ApiService.getSystemStatus .fail now =
      { status := .unhealthy, data_available := false,
        latest_data_age_minutes := none, timestamp := now } ∧
    ApiService.getSystemStatus (.success false b4) now =
      { status := .unhealthy, data_available := false,
        latest_data_age_minutes := none, timestamp := now } :=
  ⟨rfl, rfl, rfl, rfl, rfl, rfl, rfl, rfl, rfl, rfl⟩

/-- C10: a signal whose optional `distance_pips` field is absent is
treated as having distance 0 at the filtering interfaces: it satisfies
the fallback proximity predicate for every non-negative maxDistance and
the very-close notification predicate (distance ≤ 5), and both filters
keep it. -/
theorem absent_distance_passes_filters (s : ApiSignal) (maxD : ℚ)
    (habs : s.distance_pips = none) (hmd : 0 ≤ maxD) :
    ApiService.proximityPred maxD s = true ∧
    veryClosePred s = true ∧
    List.filter (ApiService.proximityPred maxD) [s] = [s] ∧
    veryCloseSignals [s] = [s] := by
  have h1 : ApiService.proximityPred maxD s = true := by
    simp [ApiService.proximityPred, habs, hmd]
  have h2 : veryClosePred s = true := by
    simp [veryClosePred, habs]
  exact ⟨h1, h2, by simp [h1], by simp [veryCloseSignals, h2]⟩

/-- Witness for C10 on a concrete signal without `distance_pips`, at
maxDistance 15. -/
theorem absent_distance_passes_filters_witness :
    ((⟨"w", "EUR_USD", "H1", .BUY, 0.5, 1.1, 1.1, 1.09, 1.11, 1.12, 1.13,
        none, none, "t", [], none⟩ : ApiSignal).distance_pips = none ∧
      (0 : ℚ) ≤ 15) ∧
    (ApiService.proximityPred 15
        (⟨"w", "EUR_USD", "H1", .BUY, 0.5, 1.1, 1.1, 1.09, 1.11, 1.12, 1.13,
          none, none, "t", [], none⟩ : ApiSignal) = true ∧
      veryClosePred
        (⟨"w", "EUR_USD", "H1", .BUY, 0.5, 1.1, 1.1, 1.09, 1.11, 1.12, 1.13,
          none, none, "t", [], none⟩ : ApiSignal) = true ∧
      List.filter (ApiService.proximityPred 15)
        [(⟨"w", "EUR_USD", "H1", .BUY, 0.5, 1.1, 1.1, 1.09, 1.11, 1.12, 1.13,
          none, none, "t", [], none⟩ : ApiSignal)] =
        [(⟨"w", "EUR_USD", "H1", .BUY, 0.5, 1.1, 1.1, 1.09, 1.11, 1.12, 1.13,
          none, none, "t", [], none⟩ : ApiSignal)] ∧
      veryCloseSignals
        [(⟨"w", "EUR_USD", "H1", .BUY, 0.5, 1.1, 1.1, 1.09, 1.11, 1.12, 1.13,
          none, none, "t", [], none⟩ : ApiSignal)] =
        [(⟨"w", "EUR_USD", "H1", .BUY, 0.5, 1.1, 1.1, 1.09, 1.11, 1.12, 1.13,
          none, none, "t", [], none⟩ : ApiSignal)]) :=
  ⟨⟨rfl, by norm_num⟩,
   absent_distance_passes_filters
     (⟨"w", "EUR_USD", "H1", .BUY, 0.5, 1.1, 1.1, 1.09, 1.11, 1.12, 1.13,
       none, none, "t", [], none⟩ : ApiSignal) 15 rfl (by norm_num)⟩
